import Mathlib

/-!
Verification development for `whisper_server.py` of the local-whisper-backend
repository.

The Python module is shallowly embedded: its pure string manipulation is
translated to Lean functions on `String` (a Python `str` is modelled by its
character list; `str.strip`, `str.lower` and substring tests are implemented
below), environment configuration is an explicit `Config` record (`none`
models an unset variable, mirroring `os.getenv(name, default)`), the external
`WhisperModel` constructor is an oracle passed as a function returning a
`LoadOutcome`, the model cache is an explicit association list threaded
through `get_model`, and the exception-driven control flow (the
`try`/`except ValueError` fallback loop, the final classification raise, and
the endpoint handler try, except and finally blocks) is translated to explicit
sum-type results plus an effect trace for logging and cleanup.
-/

namespace WhisperServer

/-! ## Python string primitives -/

/-- Python `str.strip()` on the character list: drop whitespace from both ends. -/
def pyStripList (l : List Char) : List Char :=
  ((l.dropWhile Char.isWhitespace).reverse.dropWhile Char.isWhitespace).reverse

/-- Python `str.strip()` with no arguments. -/
def pyStrip (s : String) : String := String.mk (pyStripList s.data)

/-- Python `str.lower()`, as applied to model names and exception text. -/
def pyLower (s : String) : String := String.mk (s.data.map Char.toLower)

/-- Substring test on character lists, the semantics of Python `needle in haystack`. -/
def listContainsSub (needle : List Char) : List Char → Bool
  | [] => needle.isEmpty
  | c :: rest => needle.isPrefixOf (c :: rest) || listContainsSub needle rest

/-- Python `needle in haystack` for strings. -/
def pyContains (needle haystack : String) : Bool :=
  listContainsSub needle.data haystack.data

/-- A single ASCII apostrophe character, as a string. -/
def sq : String := String.mk [Char.ofNat 39]

/-- Wrap a string in apostrophes, as the f-strings of the server do. -/
def pyQuote (s : String) : String := sq ++ s ++ sq

/-! ## Configuration (module-level `os.getenv` reads) -/

/-- The environment variables read at import time. A `none` field models an
unset variable, so that `Option.getD` mirrors `os.getenv(name, default)`
exactly: an environment variable explicitly set to the empty string yields
`some ""`, not the fallback. -/
structure Config where
  localWhisperModel : Option String
  localWhisperDevice : Option String
  localWhisperComputeType : Option String

/-- `DEFAULT_MODEL_NAME = os.getenv("LOCAL_WHISPER_MODEL", "large-v3-turbo")`. -/
def DEFAULT_MODEL_NAME (cfg : Config) : String :=
  cfg.localWhisperModel.getD "large-v3-turbo"

/-- `WHISPER_DEVICE = os.getenv("LOCAL_WHISPER_DEVICE", "auto")`. -/
def WHISPER_DEVICE (cfg : Config) : String :=
  cfg.localWhisperDevice.getD "auto"

/-- `WHISPER_COMPUTE_TYPE = os.getenv("LOCAL_WHISPER_COMPUTE_TYPE", "auto")`. -/
def WHISPER_COMPUTE_TYPE (cfg : Config) : String :=
  cfg.localWhisperComputeType.getD "auto"

/-- The static alias table `MODEL_ALIASES`. -/
def MODEL_ALIASES : List (String × String) := [("large-v3-turbo", "large-v3")]

/-- Python `MODEL_ALIASES.get(key)`: `None` when the key is absent. -/
def MODEL_ALIASES_get (key : String) : Option String :=
  (MODEL_ALIASES.find? (fun p => p.1 == key)).map (fun p => p.2)

/-! ## `_compute_type_candidates` -/

/-- The inner `add` closure of `_compute_type_candidates`: append `candidate`
unless it is falsy (empty) or already present. -/
def addCandidate (candidates : List String) (candidate : String) : List String :=
  if candidate ≠ "" ∧ candidate ∉ candidates then candidates ++ [candidate]
  else candidates

/-- The first line of `_compute_type_candidates`:
`configured = (WHISPER_COMPUTE_TYPE or "auto").strip() or "auto"`. -/
def configuredComputeType (cfg : Config) : String :=
  let raw := WHISPER_COMPUTE_TYPE cfg
  let withDefault := if raw = "" then "auto" else raw
  let stripped := pyStrip withDefault
  if stripped = "" then "auto" else stripped

/-- The body of `_compute_type_candidates`. -/
def _compute_type_candidates (cfg : Config) : List String :=
  let configured := configuredComputeType cfg
  let configured_lower := pyLower configured
  let c1 := addCandidate [] configured
  let c2 :=
    if configured_lower = "float16" then
      addCandidate (addCandidate c1 "int8_float32") "int8"
    else c1
  addCandidate c2 "auto"

/-! ## `normalize_model_name` -/

/-- The body of `normalize_model_name`. The `match` with the emptiness test on
the alias models the Python truthiness test on the fetched alias, where
both `None` and the empty string are falsy. -/
def normalize_model_name (cfg : Config) (requested_name : Option String) : String :=
  let stripped := pyStrip (requested_name.getD "")
  let normalized := if stripped = "" then DEFAULT_MODEL_NAME cfg else stripped
  match MODEL_ALIASES_get (pyLower normalized) with
  | some aliasTarget => if aliasTarget = "" then normalized else aliasTarget
  | none => normalized

/-! ## `get_model` -/

/-- One invocation of the external `WhisperModel` constructor, as seen by
`get_model`: it either returns a handle, raises a `ValueError` (the only class
caught by the fallback loop), or raises some other exception. `H` is the type
of loaded-model handles. -/
inductive LoadOutcome (H : Type) where
  | ok (handle : H)
  | valueError (msg : String)
  | otherError (msg : String)
deriving DecidableEq

/-- How the `for compute_type in ...` loop of `get_model` ends. -/
inductive LoopResult (H : Type) where
  | success (handle : H)
  | exhausted (lastError : Option String)
  | fatal (msg : String)
deriving DecidableEq

/-- The ways `get_model` can raise. `valueError` is the re-raised
`last_error`, `other` is a non-`ValueError` exception propagating out of the
constructor, `runtimeError` is the raise for an empty candidate list. -/
inductive GetModelError where
  | modelNotAvailable (msg : String)
  | valueError (msg : String)
  | other (msg : String)
  | runtimeError (msg : String)
deriving DecidableEq

/-- Python `dict` lookup on the association-list model of `_MODEL_CACHE`. -/
def dictLookup {H : Type} (d : List (String × H)) (key : String) : Option H :=
  (d.find? (fun p => p.1 == key)).map (fun p => p.2)

/-- Python `dict` assignment: replace in place if the key exists, else append. -/
def dictInsert {H : Type} : List (String × H) → String → H → List (String × H)
  | [], key, v => [(key, v)]
  | kv :: rest, key, v =>
    if kv.1 = key then (key, v) :: rest else kv :: dictInsert rest key v

/-- The `for compute_type in _compute_type_candidates()` loop of `get_model`:
try the candidates in order, keeping the last caught `ValueError`; a success
or a non-`ValueError` exception stops the loop at once. The first component
is the trace of compute types actually passed to the constructor. -/
def loadLoop {H : Type} (loader : String → String → String → LoadOutcome H)
    (name device : String) : List String → Option String → List String × LoopResult H
  | [], lastError => ([], .exhausted lastError)
  | ct :: rest, _lastError =>
    match loader name device ct with
    | .ok m => ([ct], .success m)
    | .valueError msg =>
      let p := loadLoop loader name device rest (some msg)
      (ct :: p.1, p.2)
    | .otherError msg => ([ct], .fatal msg)

/-- The state and outcome of one `get_model` call: the cache afterwards, the
trace of constructor invocations, and the returned handle or raised error. -/
structure GetModelResult (H : Type) where
  cache : List (String × H)
  attempts : List String
  result : Except GetModelError H

/-- The message-text classification at the end of `get_model`: does the
lowercased error text contain one of the missing-model phrases. -/
def missingPhrase (msg : String) : Bool :=
  let error_text := pyLower msg
  (["not found", "no such file", "could not be found"]).any
    (fun phrase => pyContains phrase error_text)

/-- The exact message built by `get_model` when every candidate has failed:
the model name is wrapped in apostrophes by the f-string. -/
def unableMessage (normalized_name : String) : String :=
  "Unable to load Whisper model " ++ pyQuote normalized_name ++ " with any compute type."

/-- The code after the fallback loop of `get_model`: store-and-return on
success, immediate propagation of a fatal error, and otherwise the
classification of the final `ValueError` into `ModelNotAvailableError`
(when the message indicates missing files), a re-raise of `last_error`,
or the `RuntimeError` for an empty candidate list. -/
def finishLoad {H : Type} (cache : List (String × H)) (normalized_name : String) :
    List String × LoopResult H → GetModelResult H
  | (attempts, .success m) => ⟨dictInsert cache normalized_name m, attempts, .ok m⟩
  | (attempts, .fatal msg) => ⟨cache, attempts, .error (.other msg)⟩
  | (attempts, .exhausted lastError) =>
    match lastError with
    | some msg =>
      if missingPhrase msg then
        ⟨cache, attempts,
          .error (.modelNotAvailable
            (unableMessage normalized_name ++ " Model files are not available locally."))⟩
      else ⟨cache, attempts, .error (.valueError msg)⟩
    | none => ⟨cache, attempts, .error (.runtimeError (unableMessage normalized_name))⟩

/-- The body of `get_model`: normalize, look up the cache, and on a miss run
the fallback loop followed by the error classification. The lock of the
Python code serializes this whole body; one sequential call models one
critical section. -/
def get_model {H : Type} (cfg : Config) (loader : String → String → String → LoadOutcome H)
    (cache : List (String × H)) (model_name : String) : GetModelResult H :=
  match dictLookup cache (normalize_model_name cfg (some model_name)) with
  | some m => ⟨cache, [], .ok m⟩
  | none =>
    finishLoad cache (normalize_model_name cfg (some model_name))
      (loadLoop loader (normalize_model_name cfg (some model_name)) (WHISPER_DEVICE cfg)
        (_compute_type_candidates cfg) none)

/-! ## `run_transcription` -/

/-- A segment yielded by `model.transcribe`: the fields read by
`run_transcription`. Timestamps and probabilities are carried opaquely as
rationals (no arithmetic is ever performed on them); `text` is optional
because Python reads `segment.text or ""`. -/
structure InSegment where
  start : Rat
  stop : Rat
  text : Option String
  tokens : List Int
  avg_logprob : Rat
  compression_ratio : Rat
  no_speech_prob : Rat
deriving DecidableEq

/-- One dict appended to `segments` by `run_transcription`. -/
structure OutSegment where
  id : Nat
  seek : Nat
  start : Rat
  stop : Rat
  text : Option String
  tokens : List Int
  temperature : Rat
  avg_logprob : Rat
  compression_ratio : Rat
  no_speech_prob : Rat
deriving DecidableEq

/-- The `for index, segment in enumerate(segments_generator)` loop of
`run_transcription`: builds the output segment dicts and the
`collected_text` accumulator in yield order. -/
def segLoop : Nat → List InSegment → List OutSegment × List String
  | _, [] => ([], [])
  | index, s :: rest =>
    let text := pyStrip (s.text.getD "")
    let p := segLoop (index + 1) rest
    (⟨index, 0, s.start, s.stop, s.text, s.tokens, 0, s.avg_logprob,
        s.compression_ratio, s.no_speech_prob⟩ :: p.1,
      (if text = "" then [] else [text]) ++ p.2)

/-- The segment-shaping part of `run_transcription`, as a function of the
sequence of segments yielded by the model: returns `(full_text, segments)`
exactly as the Python loop plus `" ".join(collected_text).strip()` does.
Model resolution and the `model.transcribe` call that produce the segment
sequence are external to this computation. -/
def run_transcription (segs : List InSegment) : String × List OutSegment :=
  let p := segLoop 0 segs
  (pyStrip (String.intercalate " " p.2), p.1)

/-! ## `create_transcription` after the temporary file exists -/

/-- The JSON object returned on success, with the fresh uuid hex and the
timestamp supplied by the environment. -/
structure TranscriptionPayload where
  id : String
  object : String
  created : Int
  model : String
  text : String
  segments : List OutSegment
deriving DecidableEq

/-- An HTTP outcome of the endpoint: a 200 payload or an `HTTPException`. -/
inductive HttpResponse where
  | ok (payload : TranscriptionPayload)
  | httpError (status : Nat) (detail : String)
deriving DecidableEq

/-- How the `run_transcription(temp_path, selected_model)` call inside the
try block of the handler ends. -/
inductive TranscriptionOutcome where
  | success (fullText : String) (segments : List OutSegment)
  | modelNotAvailable (msg : String)
  | failure (msg : String)
deriving DecidableEq

/-- Observable side effects of the finally block of the handler. -/
inductive CleanupEffect where
  | unlinkAttempt
  | warnCleanupFailed
deriving DecidableEq

/-- The `finally` block: `temp_path.unlink()` is attempted, and an `OSError`
from it is caught and logged as a warning. -/
def cleanupTempFile (unlinkOk : Bool) : List CleanupEffect :=
  if unlinkOk then [.unlinkAttempt] else [.unlinkAttempt, .warnCleanupFailed]

/-- The detail string of the 503 response, naming the resolved model. -/
def unavailableDetail (selectedModel : String) : String :=
  "Model " ++ pyQuote selectedModel ++ " is not available locally. Download it before retrying."

/-- The `try`/`except`/`finally` of `create_transcription` from the point at
which the temporary file exists: every branch of the `try` statement (the
success path, the `ModelNotAvailableError` handler, and the catch-all
handler) runs the `finally` cleanup, whose own failure is logged and cannot
alter the chosen response. -/
def create_transcription_afterTemp (selectedModel reqId : String) (created : Int)
    (outcome : TranscriptionOutcome) (unlinkOk : Bool) : HttpResponse × List CleanupEffect :=
  match outcome with
  | .success fullText segments =>
    (.ok ⟨"transcription-" ++ reqId, "transcription", created, selectedModel,
        fullText, segments⟩,
      cleanupTempFile unlinkOk)
  | .modelNotAvailable _ =>
    (.httpError 503 (unavailableDetail selectedModel), cleanupTempFile unlinkOk)
  | .failure _ =>
    (.httpError 500 "Whisper transcription failed.", cleanupTempFile unlinkOk)

/-! ## Definitions written from the claim wording (for refinement statements) -/

/-- The last three lines of `normalize_model_name` (the alias substitution
with the Python truthiness guard), factored for reasoning; `normalize_model_name`
is definitionally this applied to the trimmed-or-defaulted name. -/
def aliasApply (n : String) : String :=
  match MODEL_ALIASES_get (pyLower n) with
  | some aliasTarget => if aliasTarget = "" then n else aliasTarget
  | none => n

/-- Written from claim C2: exact-match deduplication in which a candidate
already present is skipped and the first occurrence keeps its position. -/
def dedupKeepFirst (l : List String) : List String :=
  l.foldl (fun acc x => if x ∈ acc then acc else acc ++ [x]) []

/-- Written from claim C2: the raw candidate sequence before deduplication --
the trimmed configured value (sentinel "auto" if unset or blank) first, the
two float16 fallbacks when that value is "float16" case-insensitively, and
"auto" last. -/
def claimedCandidateBase (cfg : Config) : List String :=
  let t := pyStrip (WHISPER_COMPUTE_TYPE cfg)
  let configured := if t = "" then "auto" else t
  [configured] ++
    (if pyLower configured = "float16" then ["int8_float32", "int8"] else []) ++
    ["auto"]

/-- Written from claim C6: the space-joined trimmed texts of exactly those
segments whose trimmed text is non-empty, trimmed again as a whole. -/
def fullTextOfSegments (segs : List InSegment) : String :=
  pyStrip (String.intercalate " "
    ((segs.map (fun s => pyStrip (s.text.getD ""))).filter (fun t => t != "")))

/-! ## Helper lemmas on the string primitives -/

theorem dropWhile_self {α : Type} (p : α → Bool) (l : List α) :
    (l.dropWhile p).dropWhile p = l.dropWhile p := by
  induction l with
  | nil => rfl
  | cons a l ih =>
    cases h : p a with
    | true => simp [List.dropWhile_cons, h, ih]
    | false => simp [List.dropWhile_cons, h]

theorem dropWhile_head_false {α : Type} (p : α → Bool) (l : List α) (a : α) (l' : List α)
    (h : l.dropWhile p = a :: l') : p a = false := by
  induction l with
  | nil => cases h
  | cons b l ih =>
    cases hb : p b with
    | true =>
      rw [List.dropWhile_cons, if_pos hb] at h
      exact ih h
    | false =>
      rw [List.dropWhile_cons, if_neg (by simp [hb])] at h
      cases h
      exact hb

theorem dropWhile_eq_self_of_head {α : Type} (p : α → Bool) (l : List α)
    (h : ∀ a l', l = a :: l' → p a = false) : l.dropWhile p = l := by
  cases l with
  | nil => rfl
  | cons a l => rw [List.dropWhile_cons, if_neg (by simp [h a l rfl])]

theorem dropWhile_is_suffix {α : Type} (p : α → Bool) (l : List α) :
    ∃ t, t ++ l.dropWhile p = l := by
  induction l with
  | nil => exact ⟨[], rfl⟩
  | cons a l ih =>
    cases ha : p a with
    | true =>
      obtain ⟨t, ht⟩ := ih
      exact ⟨a :: t, by simp [List.dropWhile_cons, ha, ht]⟩
    | false => exact ⟨[], by simp [List.dropWhile_cons, ha]⟩

theorem pyStripList_idem (l : List Char) : pyStripList (pyStripList l) = pyStripList l := by
  unfold pyStripList
  set ws := Char.isWhitespace with hws
  set m := l.dropWhile ws with hm
  set Y := m.reverse.dropWhile ws with hY
  have hpre : ∃ t, Y.reverse ++ t = m := by
    obtain ⟨t, ht⟩ := dropWhile_is_suffix ws m.reverse
    refine ⟨t.reverse, ?_⟩
    have := congrArg List.reverse ht
    simpa using this
  have h1 : Y.reverse.dropWhile ws = Y.reverse := by
    apply dropWhile_eq_self_of_head
    intro a l' hal
    obtain ⟨t, ht⟩ := hpre
    rw [hal] at ht
    exact dropWhile_head_false ws l a (l' ++ t) (by rw [hm] at ht; rw [← ht]; simp)
  rw [h1, List.reverse_reverse, dropWhile_self]

theorem pyStrip_idem (s : String) : pyStrip (pyStrip s) = pyStrip s := by
  show String.mk (pyStripList (String.mk (pyStripList s.data)).data) = _
  exact congrArg String.mk (pyStripList_idem s.data)

/-! ## Helper lemmas on the alias table -/

theorem MODEL_ALIASES_get_eq_some (k a : String) (h : MODEL_ALIASES_get k = some a) :
    a = "large-v3" ∧ k = "large-v3-turbo" := by
  by_cases hk : ("large-v3-turbo" : String) = k
  · subst hk
    simp [ MODEL_ALIASES_get, MODEL_ALIASES, List.find?] at h
    exact ⟨h.symm, rfl⟩
  · have hb : (("large-v3-turbo" : String) == k) = false := beq_eq_false_iff_ne.mpr hk
    have hn : MODEL_ALIASES_get k = none := by
      simp [ MODEL_ALIASES_get, MODEL_ALIASES, List.find?, hb]
    rw [hn] at h
    cases h

/-! ## Helper lemmas on `normalize_model_name` -/

theorem normalize_eq_aliasApply (cfg : Config) (r : Option String) :
    normalize_model_name cfg r =
      aliasApply
        (if pyStrip (r.getD "") = "" then DEFAULT_MODEL_NAME cfg
         else pyStrip (r.getD "")) := rfl

theorem aliasApply_of_none (n : String) (h : MODEL_ALIASES_get (pyLower n) = none) :
    aliasApply n = n := by
  unfold aliasApply
  rw [h]

theorem normalize_idem (cfg : Config)
    (hdef : pyStrip (DEFAULT_MODEL_NAME cfg) = DEFAULT_MODEL_NAME cfg) (r : Option String) :
    normalize_model_name cfg (some (normalize_model_name cfg r)) =
      normalize_model_name cfg r := by
  rw [normalize_eq_aliasApply cfg r]
  set t := pyStrip (r.getD "") with htdef
  set n := if t = "" then DEFAULT_MODEL_NAME cfg else t with hndef
  rw [normalize_eq_aliasApply]
  cases hfind : MODEL_ALIASES_get (pyLower n) with
  | some a =>
    obtain ⟨ha, -⟩ := MODEL_ALIASES_get_eq_some _ _ hfind
    subst ha
    have hval : aliasApply n = "large-v3" := by
      unfold aliasApply
      rw [hfind]
      rfl
    rw [hval]
    rfl
  | none =>
    have hy : aliasApply n = n := aliasApply_of_none n hfind
    rw [hy]
    simp only [Option.getD_some]
    by_cases ht : t = ""
    · have hn : n = DEFAULT_MODEL_NAME cfg := by rw [hndef, if_pos ht]
      rw [hn, hdef, ite_self]
      exact aliasApply_of_none _ (hn ▸ hfind)
    · have hn : n = t := by rw [hndef, if_neg ht]
      have hst : pyStrip t = t := by rw [htdef]; exact pyStrip_idem _
      rw [hn, hst, if_neg ht]
      exact aliasApply_of_none _ (hn ▸ hfind)

/-! ## Helper lemmas on the cache dictionary -/

theorem dictLookup_insert_self {H : Type} (d : List (String × H)) (k : String) (v : H) :
    dictLookup (dictInsert d k v) k = some v := by
  induction d with
  | nil => simp [dictLookup, dictInsert, List.find?]
  | cons kv rest ih =>
    by_cases h : kv.1 = k
    · simp [dictInsert, h, dictLookup, List.find?]
    · have hb : (kv.1 == k) = false := beq_eq_false_iff_ne.mpr h
      simpa [dictInsert, h, dictLookup, List.find?, hb] using ih

theorem mem_dictInsert {H : Type} (d : List (String × H)) (k : String) (v : H) :
    ∀ kv ∈ dictInsert d k v, kv = (k, v) ∨ kv ∈ d := by
  induction d with
  | nil =>
    intro kv h
    simp [dictInsert] at h
    left
    exact h
  | cons kv0 rest ih =>
    intro kv h
    by_cases h0 : kv0.1 = k
    · simp only [dictInsert, if_pos h0, List.mem_cons] at h
      rcases h with h | h
      · left; exact h
      · right; exact List.mem_cons_of_mem _ h
    · simp only [dictInsert, if_neg h0, List.mem_cons] at h
      rcases h with h | h
      · right; exact h ▸ List.mem_cons_self _ _
      · rcases ih kv h with h' | h'
        · left; exact h'
        · right; exact List.mem_cons_of_mem _ h'

/-! ## Helper lemmas on `get_model` -/

theorem get_model_hit {H : Type} (cfg : Config)
    (loader : String → String → String → LoadOutcome H)
    (cache : List (String × H)) (model_name : String) (m : H)
    (h : dictLookup cache (normalize_model_name cfg (some model_name)) = some m) :
    get_model cfg loader cache model_name = ⟨cache, [], .ok m⟩ := by
  unfold get_model
  rw [h]

theorem get_model_miss {H : Type} (cfg : Config)
    (loader : String → String → String → LoadOutcome H)
    (cache : List (String × H)) (model_name : String)
    (h : dictLookup cache (normalize_model_name cfg (some model_name)) = none) :
    get_model cfg loader cache model_name =
      finishLoad cache (normalize_model_name cfg (some model_name))
        (loadLoop loader (normalize_model_name cfg (some model_name)) (WHISPER_DEVICE cfg)
          (_compute_type_candidates cfg) none) := by
  unfold get_model
  rw [h]

theorem get_model_ok_lookup {H : Type} (cfg : Config)
    (loader : String → String → String → LoadOutcome H)
    (cache cache' : List (String × H)) (model_name : String) (attempts : List String) (m : H)
    (h : get_model cfg loader cache model_name = ⟨cache', attempts, .ok m⟩) :
    dictLookup cache' (normalize_model_name cfg (some model_name)) = some m := by
  cases hl : dictLookup cache (normalize_model_name cfg (some model_name)) with
  | some m0 =>
    rw [get_model_hit cfg loader cache model_name m0 hl] at h
    injection h with h1 h2 h3
    injection h3 with h4
    rw [← h1, ← h4]
    exact hl
  | none =>
    rw [get_model_miss cfg loader cache model_name hl] at h
    rcases hp : loadLoop loader (normalize_model_name cfg (some model_name)) (WHISPER_DEVICE cfg)
        (_compute_type_candidates cfg) none with ⟨att, lr⟩
    rw [hp] at h
    cases lr with
    | success m0 =>
      simp only [finishLoad, GetModelResult.mk.injEq] at h
      obtain ⟨hc, -, hm⟩ := h
      injection hm with hm'
      rw [← hc, ← hm']
      exact dictLookup_insert_self cache _ m0
    | exhausted le =>
      cases le with
      | none => simp [finishLoad] at h
      | some msg =>
        by_cases hmiss : missingPhrase msg
        · simp [finishLoad, hmiss] at h
        · simp [finishLoad, hmiss] at h
    | fatal e => simp [finishLoad] at h

theorem get_model_after_ok {H : Type} (cfg : Config)
    (loader loader' : String → String → String → LoadOutcome H)
    (cache cache' : List (String × H)) (model_name : String) (attempts : List String) (m : H)
    (h : get_model cfg loader cache model_name = ⟨cache', attempts, .ok m⟩) :
    get_model cfg loader' cache' model_name = ⟨cache', [], .ok m⟩ :=
  get_model_hit cfg loader' cache' model_name m
    (get_model_ok_lookup cfg loader cache cache' model_name attempts m h)

/-! ## Helper lemmas on the fallback loop -/

theorem loadLoop_all_valueError {H : Type}
    (loader : String → String → String → LoadOutcome H) (n d : String)
    (msgOf : String → String) :
    ∀ (front : List String) (lc : String) (last0 : Option String),
      (∀ ct ∈ front ++ [lc], loader n d ct = .valueError (msgOf ct)) →
      loadLoop loader n d (front ++ [lc]) last0 =
        (front ++ [lc], .exhausted (some (msgOf lc))) := by
  intro front
  induction front with
  | nil =>
    intro lc last0 hall
    have h1 : loader n d lc = .valueError (msgOf lc) := hall lc (by simp)
    simp [loadLoop, h1]
  | cons a front ih =>
    intro lc last0 hall
    have h1 : loader n d a = .valueError (msgOf a) := hall a (by simp)
    have h2 := ih lc (some (msgOf a)) (fun ct hct => hall ct (List.mem_cons_of_mem _ hct))
    simp [loadLoop, h1, h2]

theorem loadLoop_fatal {H : Type}
    (loader : String → String → String → LoadOutcome H) (n d : String)
    (msgOf : String → String) (e : String) :
    ∀ (front : List String) (ct : String) (post : List String) (last0 : Option String),
      (∀ c ∈ front, loader n d c = .valueError (msgOf c)) →
      loader n d ct = .otherError e →
      loadLoop loader n d (front ++ ct :: post) last0 = (front ++ [ct], .fatal e) := by
  intro front
  induction front with
  | nil =>
    intro ct post last0 _ hct
    simp [loadLoop, hct]
  | cons a front ih =>
    intro ct post last0 hall hct
    have h1 : loader n d a = .valueError (msgOf a) := hall a (by simp)
    have h2 := ih ct post (some (msgOf a)) (fun c hc => hall c (List.mem_cons_of_mem _ hc)) hct
    simp [loadLoop, h1, h2]

theorem loadLoop_trace_front {H : Type}
    (loader : String → String → String → LoadOutcome H) (n d : String) :
    ∀ (cts : List String) (last0 : Option String),
      ∃ t, (loadLoop loader n d cts last0).1 ++ t = cts := by
  intro cts
  induction cts with
  | nil => intro last0; exact ⟨[], rfl⟩
  | cons ct rest ih =>
    intro last0
    cases ho : loader n d ct with
    | ok m => exact ⟨rest, by simp [loadLoop, ho]⟩
    | valueError msg =>
      obtain ⟨t, ht⟩ := ih (some msg)
      exact ⟨t, by simp [loadLoop, ho, ht]⟩
    | otherError msg => exact ⟨rest, by simp [loadLoop, ho]⟩

/-! ## Helper lemmas on the candidate list and `finishLoad` -/

theorem configuredComputeType_eq (cfg : Config) :
    configuredComputeType cfg =
      (if pyStrip (WHISPER_COMPUTE_TYPE cfg) = "" then "auto"
       else pyStrip (WHISPER_COMPUTE_TYPE cfg)) := by
  show (if pyStrip (if WHISPER_COMPUTE_TYPE cfg = "" then "auto" else WHISPER_COMPUTE_TYPE cfg) = ""
      then "auto"
      else pyStrip (if WHISPER_COMPUTE_TYPE cfg = "" then "auto" else WHISPER_COMPUTE_TYPE cfg)) = _
  by_cases h : WHISPER_COMPUTE_TYPE cfg = ""
  · rw [if_pos h, h]
    rfl
  · rw [if_neg h]

theorem configuredComputeType_ne_empty (cfg : Config) : configuredComputeType cfg ≠ "" := by
  show (if pyStrip (if WHISPER_COMPUTE_TYPE cfg = "" then "auto" else WHISPER_COMPUTE_TYPE cfg) = ""
      then "auto"
      else pyStrip (if WHISPER_COMPUTE_TYPE cfg = "" then "auto" else WHISPER_COMPUTE_TYPE cfg)) ≠ ""
  split
  · decide
  · split
    · decide
    · assumption

theorem finishLoad_attempts {H : Type} (cache : List (String × H)) (n : String)
    (p : List String × LoopResult H) : (finishLoad cache n p).attempts = p.1 := by
  rcases p with ⟨att, lr⟩
  cases lr with
  | success m => rfl
  | fatal e => rfl
  | exhausted le =>
    cases le with
    | none => rfl
    | some msg =>
      cases hm : missingPhrase msg <;> simp [finishLoad, hm]

theorem finishLoad_cache_no_success {H : Type} (cache : List (String × H)) (n : String)
    (att : List String) (lr : LoopResult H) (h : ∀ m, lr ≠ .success m) :
    (finishLoad cache n (att, lr)).cache = cache := by
  cases lr with
  | success m => exact absurd rfl (h m)
  | fatal e => rfl
  | exhausted le =>
    cases le with
    | none => rfl
    | some msg =>
      cases hm : missingPhrase msg <;> simp [finishLoad, hm]

theorem candidates_eq_dedup (cfg : Config) :
    _compute_type_candidates cfg = dedupKeepFirst (claimedCandidateBase cfg) := by
  have hbase : claimedCandidateBase cfg =
      [configuredComputeType cfg] ++
        (if pyLower (configuredComputeType cfg) = "float16" then ["int8_float32", "int8"]
         else []) ++
        ["auto"] := by
    show ([if pyStrip (WHISPER_COMPUTE_TYPE cfg) = "" then "auto"
            else pyStrip (WHISPER_COMPUTE_TYPE cfg)] ++
          (if pyLower
              (if pyStrip (WHISPER_COMPUTE_TYPE cfg) = "" then "auto"
               else pyStrip (WHISPER_COMPUTE_TYPE cfg)) = "float16" then
            ["int8_float32", "int8"]
          else []) ++
          ["auto"]) = _
    rw [← configuredComputeType_eq]
  have hexp : _compute_type_candidates cfg =
      addCandidate
        (if pyLower (configuredComputeType cfg) = "float16" then
          addCandidate
            (addCandidate (addCandidate [] (configuredComputeType cfg)) "int8_float32") "int8"
        else addCandidate [] (configuredComputeType cfg)) "auto" := rfl
  rw [hexp, hbase]
  have hcne := configuredComputeType_ne_empty cfg
  revert hcne
  generalize configuredComputeType cfg = c
  intro hcne
  have e0 : addCandidate [] c = [c] := by simp [addCandidate, hcne]
  by_cases hf : pyLower c = "float16"
  · have h1 : c ≠ "int8_float32" := by intro h; rw [h] at hf; exact absurd hf (by decide)
    have h2 : c ≠ "int8" := by intro h; rw [h] at hf; exact absurd hf (by decide)
    have h3 : c ≠ "auto" := by intro h; rw [h] at hf; exact absurd hf (by decide)
    rw [if_pos hf, if_pos hf, e0]
    have e1 : addCandidate [c] "int8_float32" = [c, "int8_float32"] := by
      simp [addCandidate, Ne.symm h1]
    have e2 : addCandidate [c, "int8_float32"] "int8" = [c, "int8_float32", "int8"] := by
      simp [addCandidate, Ne.symm h2]
    have e3 : addCandidate [c, "int8_float32", "int8"] "auto" =
        [c, "int8_float32", "int8", "auto"] := by
      simp [addCandidate, Ne.symm h3]
    rw [e1, e2, e3]
    show _ = dedupKeepFirst [c, "int8_float32", "int8", "auto"]
    simp [dedupKeepFirst, List.foldl, Ne.symm h1, Ne.symm h2, Ne.symm h3]
  · rw [if_neg hf, if_neg hf, e0]
    by_cases ha : c = "auto"
    · subst ha
      decide
    · have e1 : addCandidate [c] "auto" = [c, "auto"] := by simp [addCandidate, Ne.symm ha]
      rw [e1]
      show _ = dedupKeepFirst [c, "auto"]
      simp [dedupKeepFirst, List.foldl, Ne.symm ha]

/-! ## Helper lemmas on `run_transcription` -/

theorem segLoop_collected (segs : List InSegment) : ∀ i : Nat,
    (segLoop i segs).2 =
      (segs.map (fun s => pyStrip (s.text.getD ""))).filter (fun t => t != "") := by
  induction segs with
  | nil => intro i; rfl
  | cons s rest ih =>
    intro i
    simp only [segLoop, List.map_cons, List.filter_cons]
    by_cases h : pyStrip (s.text.getD "") = ""
    · simp [h, ih (i + 1)]
    · simp [h, ih (i + 1), bne_iff_ne]

/-! ## Helper lemmas on strings for the response shape -/

theorem str_data_append (a b : String) : (a ++ b).data = a.data ++ b.data := rfl

/-! ## Claim theorems -/

/-- Claim C1: if `get_model` is called for a name whose load attempt fails
(with a `ValueError`) for every compute-type candidate, then it raises
`ModelNotAvailableError` exactly when the final candidate's error message,
lowercased, contains one of the substrings "not found", "no such file", or
"could not be found"; otherwise it re-raises the final underlying failure
unchanged. -/
theorem C1_final_failure_classification {H : Type} (cfg : Config)
    (loader : String → String → String → LoadOutcome H)
    (cache : List (String × H)) (model_name : String)
    (msgOf : String → String) (front : List String) (lastCt : String)
    (hmiss : dictLookup cache (normalize_model_name cfg (some model_name)) = none)
    (hcand : _compute_type_candidates cfg = front ++ [lastCt])
    (hall : ∀ ct ∈ _compute_type_candidates cfg,
      loader (normalize_model_name cfg (some model_name)) (WHISPER_DEVICE cfg) ct =
        LoadOutcome.valueError (msgOf ct)) :
    (get_model cfg loader cache model_name).result =
      (if missingPhrase (msgOf lastCt) then
        Except.error (GetModelError.modelNotAvailable
          (unableMessage (normalize_model_name cfg (some model_name)) ++
            " Model files are not available locally."))
      else Except.error (GetModelError.valueError (msgOf lastCt))) := by
  rw [get_model_miss cfg loader cache model_name hmiss, hcand,
    loadLoop_all_valueError loader (normalize_model_name cfg (some model_name))
      (WHISPER_DEVICE cfg) msgOf front lastCt none (hcand ▸ hall)]
  cases hm : missingPhrase (msgOf lastCt) <;> simp [finishLoad, hm]

/-- Witness for C1 at a concrete input: one candidate, failing with a
missing-files message, classified as `ModelNotAvailableError`. -/
theorem C1_final_failure_classification_witness :
    dictLookup ([] : List (String × Nat))
        (normalize_model_name ⟨none, none, none⟩ (some "base")) = none ∧
      _compute_type_candidates ⟨none, none, none⟩ = [] ++ ["auto"] ∧
      (get_model ⟨none, none, none⟩
          (fun _ _ _ => LoadOutcome.valueError "model could not be found")
          ([] : List (String × Nat)) "base").result =
        (if missingPhrase "model could not be found" then
          Except.error (GetModelError.modelNotAvailable
            (unableMessage (normalize_model_name ⟨none, none, none⟩ (some "base")) ++
              " Model files are not available locally."))
        else Except.error (GetModelError.valueError "model could not be found")) :=
  ⟨by decide, by decide,
    C1_final_failure_classification ⟨none, none, none⟩
      (fun _ _ _ => LoadOutcome.valueError "model could not be found") [] "base"
      (fun _ => "model could not be found") [] "auto" (by decide) (by decide) (by decide)⟩

/-- Claim C2: the candidate list is the claimed base sequence (trimmed
configured value or the "auto" sentinel, float16 fallbacks, final "auto")
deduplicated by exact match keeping first occurrences; for configured
"float16" it is exactly `["float16", "int8_float32", "int8", "auto"]`; and on
a cache miss the compute types handed to the constructor are a prefix of that
list, i.e. the candidates are attempted strictly in that order. -/
theorem C2_candidate_list_construction :
    (∀ cfg : Config,
        _compute_type_candidates cfg = dedupKeepFirst (claimedCandidateBase cfg)) ∧
      (∀ dm dev : Option String,
        _compute_type_candidates ⟨dm, dev, some "float16"⟩ =
          ["float16", "int8_float32", "int8", "auto"]) ∧
      (∀ (H : Type) (cfg : Config) (loader : String → String → String → LoadOutcome H)
        (cache : List (String × H)) (model_name : String),
        dictLookup cache (normalize_model_name cfg (some model_name)) = none →
        ∃ t, (get_model cfg loader cache model_name).attempts ++ t =
          _compute_type_candidates cfg) := by
  refine ⟨candidates_eq_dedup, fun dm dev => rfl, ?_⟩
  intro H cfg loader cache model_name hmiss
  rw [get_model_miss cfg loader cache model_name hmiss, finishLoad_attempts]
  exact loadLoop_trace_front loader _ _ (_compute_type_candidates cfg) none

/-- Witness for C2 at a concrete input: a cache-miss call whose attempt trace
is a prefix of the candidate list. -/
theorem C2_candidate_list_construction_witness :
    dictLookup ([] : List (String × Nat))
        (normalize_model_name ⟨none, none, none⟩ (some "base")) = none ∧
      ∃ t, (get_model ⟨none, none, none⟩ (fun _ _ _ => LoadOutcome.ok (0 : Nat))
          [] "base").attempts ++ t = _compute_type_candidates ⟨none, none, none⟩ :=
  ⟨by decide,
    C2_candidate_list_construction.2.2 Nat ⟨none, none, none⟩
      (fun _ _ _ => LoadOutcome.ok 0) [] "base" (by decide)⟩

/-- Claim C3: after a `get_model` call for some name returned a handle (and
stored it), a second call for the same name returns the identical stored
handle, leaves the cache unchanged, and never invokes the model constructor
(its attempt trace is empty and its behaviour is independent of the loader). -/
theorem C3_second_call_returns_cached_handle {H : Type} (cfg : Config)
    (loader loader' : String → String → String → LoadOutcome H)
    (cache cache' : List (String × H)) (model_name : String)
    (attempts : List String) (m : H)
    (hfirst : get_model cfg loader cache model_name = ⟨cache', attempts, .ok m⟩) :
    get_model cfg loader' cache' model_name = ⟨cache', [], .ok m⟩ :=
  get_model_after_ok cfg loader loader' cache cache' model_name attempts m hfirst

/-- Witness for C3 at a concrete input: the first call loads and caches a
handle; the second call returns it with no constructor invocation even under
a loader that would fail. -/
theorem C3_second_call_returns_cached_handle_witness :
    get_model ⟨none, none, none⟩ (fun _ _ _ => LoadOutcome.ok (5 : Nat)) [] "base" =
        ⟨[("base", 5)], ["auto"], .ok 5⟩ ∧
      get_model ⟨none, none, none⟩ (fun _ _ _ => LoadOutcome.valueError "boom")
          [("base", 5)] "base" = ⟨[("base", 5)], [], .ok 5⟩ :=
  ⟨rfl,
    C3_second_call_returns_cached_handle ⟨none, none, none⟩
      (fun _ _ _ => LoadOutcome.ok 5) (fun _ _ _ => LoadOutcome.valueError "boom")
      [] [("base", 5)] "base" ["auto"] 5 rfl⟩

/-- Claim C4: in the transcription phase of `create_transcription`, a
`ModelNotAvailableError` yields HTTP 503 with a detail naming the resolved
model (the model name occurs verbatim inside the detail text), and any other
exception yields HTTP 500 with a fixed generic detail that carries no
information from the underlying exception (the whole response is the same for
any two exception messages). -/
theorem C4_transcription_error_mapping (selectedModel reqId : String) (created : Int)
    (unlinkOk : Bool) :
    (∀ msg,
        (create_transcription_afterTemp selectedModel reqId created
            (.modelNotAvailable msg) unlinkOk).1 =
          .httpError 503 (unavailableDetail selectedModel) ∧
        ∃ pre suf, (unavailableDetail selectedModel).data =
          pre ++ selectedModel.data ++ suf) ∧
      (∀ msg,
        (create_transcription_afterTemp selectedModel reqId created
            (.failure msg) unlinkOk).1 =
          .httpError 500 "Whisper transcription failed.") ∧
      (∀ msg msg',
        create_transcription_afterTemp selectedModel reqId created (.failure msg) unlinkOk =
          create_transcription_afterTemp selectedModel reqId created (.failure msg') unlinkOk) := by
  refine ⟨fun msg => ⟨rfl, ?_⟩, fun msg => rfl, fun msg msg' => rfl⟩
  refine ⟨("Model " ++ sq).data,
    (sq ++ " is not available locally. Download it before retrying.").data, ?_⟩
  simp [unavailableDetail, pyQuote, str_data_append, List.append_assoc]

/-- Claim C5: `normalize_model_name` maps `None`, the empty string and a
whitespace-only string to the same result, the alias-resolved configured
default; alias lookup is case-insensitive on the input and returns the alias
target in its canonical casing, so with default "large-v3-turbo" both the
absent input and "LARGE-V3-TURBO" normalize to "large-v3". -/
theorem C5_normalize_default_and_alias :
    (∀ cfg : Config,
        normalize_model_name cfg none = normalize_model_name cfg (some "") ∧
        normalize_model_name cfg (some "") = normalize_model_name cfg (some "   ") ∧
        normalize_model_name cfg none = aliasApply (DEFAULT_MODEL_NAME cfg)) ∧
      (∀ dev ct : Option String,
        normalize_model_name ⟨some "large-v3-turbo", dev, ct⟩ none = "large-v3" ∧
        normalize_model_name ⟨some "large-v3-turbo", dev, ct⟩ (some "LARGE-V3-TURBO") =
          "large-v3") :=
  ⟨fun _ => ⟨rfl, rfl, rfl⟩, fun _ _ => ⟨rfl, rfl⟩⟩

/-- Claim C6: for every sequence of segments yielded by the model, the full
text returned by `run_transcription` equals the space-joined trimmed texts of
exactly those segments whose trimmed text is non-empty, trimmed again as a
whole. -/
theorem C6_full_text_is_joined_trimmed_segments (segs : List InSegment) :
    (run_transcription segs).1 = fullTextOfSegments segs := by
  show pyStrip (String.intercalate " " (segLoop 0 segs).2) = _
  rw [segLoop_collected segs 0]
  rfl

/-- Claim C7: during a cache-miss load, only `ValueError` drives the fallback
to the next candidate; a non-`ValueError` exception raised by the constructor
propagates immediately out of `get_model`, with no further candidates tried
and the cache unchanged. -/
theorem C7_non_valueError_propagates {H : Type} (cfg : Config)
    (loader : String → String → String → LoadOutcome H)
    (cache : List (String × H)) (model_name : String)
    (msgOf : String → String) (front : List String) (ct : String) (post : List String)
    (e : String)
    (hmiss : dictLookup cache (normalize_model_name cfg (some model_name)) = none)
    (hcand : _compute_type_candidates cfg = front ++ ct :: post)
    (hfront : ∀ c ∈ front,
      loader (normalize_model_name cfg (some model_name)) (WHISPER_DEVICE cfg) c =
        LoadOutcome.valueError (msgOf c))
    (hct : loader (normalize_model_name cfg (some model_name)) (WHISPER_DEVICE cfg) ct =
      LoadOutcome.otherError e) :
    get_model cfg loader cache model_name = ⟨cache, front ++ [ct], .error (.other e)⟩ := by
  rw [get_model_miss cfg loader cache model_name hmiss, hcand,
    loadLoop_fatal loader (normalize_model_name cfg (some model_name))
      (WHISPER_DEVICE cfg) msgOf e front ct post none hfront hct]
  rfl

/-- Witness for C7 at a concrete input: a non-`ValueError` failure on the
first candidate propagates at once. -/
theorem C7_non_valueError_propagates_witness :
    dictLookup ([] : List (String × Nat))
        (normalize_model_name ⟨none, none, none⟩ (some "base")) = none ∧
      _compute_type_candidates ⟨none, none, none⟩ = [] ++ "auto" :: [] ∧
      get_model ⟨none, none, none⟩ (fun _ _ _ => LoadOutcome.otherError "cuda device error")
          ([] : List (String × Nat)) "base" =
        ⟨[], [] ++ ["auto"], .error (.other "cuda device error")⟩ :=
  ⟨by decide, by decide,
    C7_non_valueError_propagates ⟨none, none, none⟩
      (fun _ _ _ => LoadOutcome.otherError "cuda device error") [] "base"
      (fun _ => "") [] "auto" [] "cuda device error" (by decide) (by decide)
      (by simp) rfl⟩

/-- Counterexample to claim C8 as stated: with the configured default model
name equal to the empty string (environment variable set but empty, a
configuration the claim quantifies over), `normalize_model_name` returns the
empty string for an absent input. -/
theorem C8_counterexample : normalize_model_name ⟨some "", none, none⟩ none = "" := rfl

/-- Claim C8, amended: `normalize_model_name` is total (never raises) for
every input, and returns a non-empty string whenever the configured default
model name is non-empty; the non-emptiness guarantee fails only for an
explicitly empty configured default. -/
theorem C8_amended_total_and_nonempty (cfg : Config) (r : Option String)
    (hd : DEFAULT_MODEL_NAME cfg ≠ "") :
    normalize_model_name cfg r ≠ "" := by
  rw [normalize_eq_aliasApply]
  have hnne : (if pyStrip (r.getD "") = "" then DEFAULT_MODEL_NAME cfg
      else pyStrip (r.getD "")) ≠ "" := by
    split
    · exact hd
    · assumption
  revert hnne
  generalize (if pyStrip (r.getD "") = "" then DEFAULT_MODEL_NAME cfg
    else pyStrip (r.getD "")) = n
  intro hnne
  unfold aliasApply
  cases hfind : MODEL_ALIASES_get (pyLower n) with
  | some a =>
    obtain ⟨ha, -⟩ := MODEL_ALIASES_get_eq_some _ _ hfind
    subst ha
    simp
  | none => exact hnne

/-- Witness for the amended C8 at a concrete input. -/
theorem C8_amended_total_and_nonempty_witness :
    DEFAULT_MODEL_NAME ⟨none, none, none⟩ ≠ "" ∧
      normalize_model_name ⟨none, none, none⟩ (some "   ") ≠ "" :=
  ⟨by decide, C8_amended_total_and_nonempty ⟨none, none, none⟩ (some "   ") (by decide)⟩

/-- Claim C9: from the point at which the temporary file exists, every exit
path of the handler (success, model-unavailable, any other exception) runs
the cleanup attempt for the temporary file; the HTTP response does not depend
on whether the removal succeeds; and a removal failure is exactly what gets
logged as the cleanup warning. -/
theorem C9_cleanup_every_path (selectedModel reqId : String) (created : Int)
    (outcome : TranscriptionOutcome) (unlinkOk : Bool) :
    CleanupEffect.unlinkAttempt ∈
        (create_transcription_afterTemp selectedModel reqId created outcome unlinkOk).2 ∧
      (create_transcription_afterTemp selectedModel reqId created outcome unlinkOk).1 =
        (create_transcription_afterTemp selectedModel reqId created outcome true).1 ∧
      (CleanupEffect.warnCleanupFailed ∈
          (create_transcription_afterTemp selectedModel reqId created outcome unlinkOk).2 ↔
        unlinkOk = false) := by
  cases outcome <;> cases unlinkOk <;>
    simp [create_transcription_afterTemp, cleanupTempFile]

/-- Counterexample to claim C10 as stated: with the configured default
" base " (legal, surrounding whitespace), a `get_model` call with a blank
requested name caches the handle under the key " base ", and that key is not
a fixed point of `normalize_model_name` (which maps it to "base"). -/
theorem C10_counterexample :
    (get_model ⟨some " base ", none, none⟩ (fun _ _ _ => LoadOutcome.ok (0 : Nat))
        [] "").cache = [(" base ", 0)] ∧
      normalize_model_name ⟨some " base ", none, none⟩ (some " base ") ≠ " base " := by
  constructor
  · rfl
  · decide

/-- Claim C10, amended: provided the configured default model name is already
trimmed (equal to its own stripped form), `get_model` normalizes its argument
before every cache lookup and insertion, so every key of the cache stays a
fixed point of `normalize_model_name`; and unconditionally, after a call for
"large-v3-turbo" stored a handle, a call for the aliased name "large-v3"
resolves to the same cache entry and returns the same handle without creating
a second entry. -/
theorem C10_amended_cache_keys_normalized {H : Type} :
    (∀ (cfg : Config) (loader : String → String → String → LoadOutcome H)
        (cache : List (String × H)) (model_name : String),
      pyStrip (DEFAULT_MODEL_NAME cfg) = DEFAULT_MODEL_NAME cfg →
      (∀ kv ∈ cache, normalize_model_name cfg (some kv.1) = kv.1) →
      ∀ kv ∈ (get_model cfg loader cache model_name).cache,
        normalize_model_name cfg (some kv.1) = kv.1) ∧
      (∀ (cfg : Config) (loader loader' : String → String → String → LoadOutcome H)
        (cache cache' : List (String × H)) (attempts : List String) (m : H),
        get_model cfg loader cache "large-v3-turbo" = ⟨cache', attempts, .ok m⟩ →
        get_model cfg loader' cache' "large-v3" = ⟨cache', [], .ok m⟩) := by
  constructor
  · intro cfg loader cache model_name hdef hkeys
    cases hl : dictLookup cache (normalize_model_name cfg (some model_name)) with
    | some m0 =>
      rw [get_model_hit cfg loader cache model_name m0 hl]
      exact hkeys
    | none =>
      rw [get_model_miss cfg loader cache model_name hl]
      rcases hp : loadLoop loader (normalize_model_name cfg (some model_name))
          (WHISPER_DEVICE cfg) (_compute_type_candidates cfg) none with ⟨att, lr⟩
      cases lr with
      | success m0 =>
        intro kv hkv
        have hkv' : kv ∈ dictInsert cache (normalize_model_name cfg (some model_name)) m0 := by
          simpa [finishLoad] using hkv
        rcases mem_dictInsert cache _ m0 kv hkv' with h | h
        · rw [h]
          exact normalize_idem cfg hdef (some model_name)
        · exact hkeys kv h
      | exhausted le =>
        rw [finishLoad_cache_no_success cache _ att (.exhausted le)
          (fun m hcon => by cases hcon)]
        exact hkeys
      | fatal e =>
        rw [finishLoad_cache_no_success cache _ att (.fatal e)
          (fun m hcon => by cases hcon)]
        exact hkeys
  · intro cfg loader loader' cache cache' attempts m hfirst
    exact get_model_hit cfg loader' cache' "large-v3" m
      (get_model_ok_lookup cfg loader cache cache' "large-v3-turbo" attempts m hfirst)

/-- Witness for the amended C10 at a concrete input: with the unset-default
configuration, the key cached by a call for "base" is a fixed point of
`normalize_model_name`. -/
theorem C10_amended_cache_keys_normalized_witness :
    pyStrip (DEFAULT_MODEL_NAME ⟨none, none, none⟩) = DEFAULT_MODEL_NAME ⟨none, none, none⟩ ∧
      normalize_model_name ⟨none, none, none⟩ (some "base") = "base" :=
  ⟨by decide,
    C10_amended_cache_keys_normalized.1 ⟨none, none, none⟩
      (fun _ _ _ => LoadOutcome.ok (0 : Nat)) [] "base" (by decide) (by simp)
      ("base", 0) (by decide)⟩

end WhisperServer
